import Mathlib

/-!
Verification development for the GKE node-pool observability poller
(`gke_node_pool_observability.py`).

The source program polls the GKE API for clusters and node pools, counts the
live instances behind each node pool, computes a utilization percentage, and
pushes three gauge metrics per node pool to New Relic.  Every remote-facing
function is wrapped in the same tenacity retry decorator
(`stop_after_attempt(5)`, `wait_fixed(2)`, retry on any exception).

The embedding below models the remote world as a record of deterministic
oracles (`Env`): each remote capability is a pure function that either
answers or fails with an `Err`.  Fallible Python code becomes `Except Err`.
Python floats are modelled as rationals (`ℚ`).  The tenacity decorator is
modelled by an explicit bounded-retry combinator (`tenacity_retry`) that also
counts invocations and accumulated fixed-delay waiting time; since the
oracles are deterministic, the value of a retried call equals the value of a
single call (`retryE_eq`), while the attempt counts still reflect the retry
schedule.  Metric emission is observable: the orchestrator returns the list
of batches handed to `send_batch`, one entry per submission attempt.
-/

namespace GKE

/-- Failures a remote call can surface: a remote-service error, an HTTP
error status raised by `raise_for_status`, or a Python `IndexError` from
indexing into the slash-split instance-group URL. -/
inductive Err where
  | remote (msg : String)
  | httpError (status : Nat)
  | indexError
deriving DecidableEq

/-- Source constant `RETRY_ATTEMPTS = 5`. -/
def RETRY_ATTEMPTS : Nat := 5

/-- Source constant `RETRY_WAIT = 2` (seconds). -/
def RETRY_WAIT : Nat := 2

/-- Core of the tenacity retry loop.  `fuel` is the number of attempts that
may still follow the current one, `idx` the zero-based index of the current
attempt, `tw` the fixed-delay waiting time accumulated so far.  Returns the
final result, the total number of invocations performed, and the total
waiting time.  The operation is indexed by the attempt number so that an
operation may fail on some attempts and succeed on later ones. -/
def retry_go {α : Type} (op : Nat → Except Err α) (w : Nat) :
    Nat → Nat → Nat → Except Err α × Nat × Nat
  | 0, idx, tw => (op idx, idx + 1, tw)
  | fuel + 1, idx, tw =>
      match op idx with
      | Except.ok v => (Except.ok v, idx + 1, tw)
      | Except.error _ => retry_go op w fuel (idx + 1) (tw + w)

/-- Model of the tenacity decorator
`retry(stop=stop_after_attempt(attempts), wait=wait_fixed(w),
retry=retry_if_exception_type(Exception))`: run the wrapped operation up to
`attempts` times, waiting `w` time units between consecutive attempts, and
propagate the failure of the final attempt when every attempt fails. -/
def tenacity_retry {α : Type} (attempts w : Nat) (op : Nat → Except Err α) :
    Except Err α × Nat × Nat :=
  retry_go op w (attempts - 1) 0 0

/-- Retry of a deterministic call: every attempt yields the same outcome, so
only the value of the outcome is kept.  This is how the retry decorator acts
on the deterministic oracle model. -/
def retryE {α : Type} (x : Except Err α) : Except Err α :=
  (tenacity_retry RETRY_ATTEMPTS RETRY_WAIT (fun _ => x)).1

/-- A node pool as returned by `client.get_node_pool`: its attached
instance-group URLs and the autoscaling ceiling `autoscaling.max_node_count`
(0 when autoscaling is absent, as for proto defaults). -/
structure NodePool where
  instance_group_urls : List String
  max_node_count : Nat
deriving DecidableEq

/-- The dictionary returned by `get_node_pool_info`. -/
structure NodePoolInfo where
  current_node_count : Nat
  max_node_count : Nat
  node_usage_percent : ℚ
deriving DecidableEq

/-- The tag dictionary attached to every gauge metric. -/
structure Tags where
  project_id : String
  region : String
  cluster_name : String
  node_pool_name : String
deriving DecidableEq

/-- One `GaugeMetric(name, value, tags=tags)` object. -/
structure GaugeMetric where
  name : String
  value : ℚ
  tags : Tags
deriving DecidableEq

/-- The remote world: deterministic oracles for the GKE cluster-manager
calls, the compute instance-group listing, and the New Relic batch
submission (which answers with an HTTP status code). `list_instances`
answers with `none` when the response carries no `items` field and with
`some items` otherwise. -/
structure Env where
  list_clusters : String → String → Except Err (List String)
  list_node_pools : String → String → String → Except Err (List String)
  get_node_pool : String → String → String → String → Except Err NodePool
  list_instances : String → String → String → Except Err (Option (List String))
  send_batch : List GaugeMetric → Nat

/-- Split a character list at every occurrence of `sep`, keeping empty
groups — the semantics of Python `str.split` with a one-character
separator. -/
def split_chars (sep : Char) : List Char → List (List Char)
  | [] => [[]]
  | c :: cs =>
      let r := split_chars sep cs
      if c = sep then [] :: r
      else
        match r with
        | [] => [[c]]
        | g :: gs => (c :: g) :: gs

/-- Python `s.split(sep)` for a one-character separator: `"".split(sep)`
is `[""]`, consecutive separators produce empty segments, and a trailing
separator produces a trailing empty segment. -/
def py_split (s : String) (sep : Char) : List String :=
  (split_chars sep s.toList).map List.asString

/-- Source line 82:
`(current_node_count / max_node_count) * 100 if max_node_count else 0`. -/
def node_usage_percent (current maxc : Nat) : ℚ :=
  if maxc ≠ 0 then ((current : ℚ) / (maxc : ℚ)) * 100 else 0

/-- Source lines 46-49: split the instance-group URL on `/` and read the
fixed slots 6, 8 and 10.  A slot beyond the end of the list is a Python
`IndexError`, modelled by `none`. -/
def parse_instance_group_url (instance_group_url : String) :
    Option (String × String × String) :=
  let parts := py_split instance_group_url '/'
  match parts[6]?, parts[8]?, parts[10]? with
  | some project, some zone, some instance_group => some (project, zone, instance_group)
  | _, _, _ => none

/-- Source line 54: `len(response) if response else 0`, where `response` is
the optional `items` field.  `None` and the empty list are falsy. -/
def count_of_items {α : Type} (response : Option (List α)) : Nat :=
  match response with
  | none => 0
  | some items => if items.isEmpty then 0 else items.length

/-- Body of `get_instance_group_node_count` (source lines 36-54), one
attempt: parse the URL, then list the instances of the group and count
them. -/
def get_instance_group_node_count_body (env : Env) (instance_group_url : String) :
    Except Err Nat :=
  match parse_instance_group_url instance_group_url with
  | none => Except.error Err.indexError
  | some (project, zone, instance_group) =>
      match env.list_instances project zone instance_group with
      | Except.error e => Except.error e
      | Except.ok response => Except.ok (count_of_items response)

/-- The decorated `get_instance_group_node_count`: its body under the retry
wrapper. -/
def get_instance_group_node_count (env : Env) (instance_group_url : String) :
    Except Err Nat :=
  retryE (get_instance_group_node_count_body env instance_group_url)

/-- Source line 76:
`sum(get_instance_group_node_count(url) for url in node_pool.instance_group_urls)`.
The generator is consumed left to right; the first failing element aborts
the sum. -/
def sum_instance_group_counts (env : Env) : List String → Except Err Nat
  | [] => Except.ok 0
  | url :: rest =>
      match get_instance_group_node_count env url with
      | Except.error e => Except.error e
      | Except.ok n =>
          match sum_instance_group_counts env rest with
          | Except.error e => Except.error e
          | Except.ok m => Except.ok (n + m)

/-- Body of `get_node_pool_info` (source lines 58-83), one attempt: fetch
the node pool, sum the instance-group counts, read the autoscaling ceiling,
compute the usage percentage. -/
def get_node_pool_info_body (env : Env)
    (project_id region cluster_name node_pool_name : String) :
    Except Err NodePoolInfo :=
  match env.get_node_pool project_id region cluster_name node_pool_name with
  | Except.error e => Except.error e
  | Except.ok node_pool =>
      match sum_instance_group_counts env node_pool.instance_group_urls with
      | Except.error e => Except.error e
      | Except.ok current_node_count =>
          Except.ok
            { current_node_count := current_node_count,
              max_node_count := node_pool.max_node_count,
              node_usage_percent :=
                node_usage_percent current_node_count node_pool.max_node_count }

/-- The decorated `get_node_pool_info`. -/
def get_node_pool_info (env : Env)
    (project_id region cluster_name node_pool_name : String) :
    Except Err NodePoolInfo :=
  retryE (get_node_pool_info_body env project_id region cluster_name node_pool_name)

/-- Python `dict` assignment `d[k] = v` on an insertion-ordered association
list: an existing key keeps its position and its value is overwritten, a
new key is appended at the end. -/
def dict_insert (m : List (String × List String)) (k : String) (v : List String) :
    List (String × List String) :=
  if m.any (fun p => p.1 == k) then
    m.map (fun p => if p.1 == k then (k, v) else p)
  else
    m ++ [(k, v)]

/-- Source lines 27-31: the loop over the returned clusters, filling the
`cluster_node_pools` dictionary with the node-pool names of each cluster. -/
def build_cluster_map (env : Env) (project_id region : String) :
    List String → List (String × List String) → Except Err (List (String × List String))
  | [], acc => Except.ok acc
  | cname :: rest, acc =>
      match env.list_node_pools project_id region cname with
      | Except.error e => Except.error e
      | Except.ok node_pools =>
          build_cluster_map env project_id region rest (dict_insert acc cname node_pools)

/-- Body of `get_all_clusters_and_node_pools` (source lines 11-32), one
attempt. -/
def get_all_clusters_and_node_pools_body (env : Env) (project_id region : String) :
    Except Err (List (String × List String)) :=
  match env.list_clusters project_id region with
  | Except.error e => Except.error e
  | Except.ok clusters => build_cluster_map env project_id region clusters []

/-- The decorated `get_all_clusters_and_node_pools`. -/
def get_all_clusters_and_node_pools (env : Env) (project_id region : String) :
    Except Err (List (String × List String)) :=
  retryE (get_all_clusters_and_node_pools_body env project_id region)

/-- Source lines 105-109: the three gauge metrics built per node pool, all
carrying the same tag dictionary. -/
def build_metrics (tags : Tags) (info : NodePoolInfo) : List GaugeMetric :=
  [ { name := "gke.node_pool.current_node_count",
      value := (info.current_node_count : ℚ), tags := tags },
    { name := "gke.node_pool.max_node_count",
      value := (info.max_node_count : ℚ), tags := tags },
    { name := "gke.node_pool.node_usage_percent",
      value := info.node_usage_percent, tags := tags } ]

/-- Body of `send_metrics_to_newrelic` (source lines 86-113), one attempt:
build the batch, submit it, and `raise_for_status` — a status outside the
2xx range raises.  Returns the batch that was submitted together with the
outcome. -/
def send_metrics_to_newrelic_body (env : Env) (tags : Tags) (info : NodePoolInfo) :
    List GaugeMetric × Except Err Unit :=
  let metrics := build_metrics tags info
  let status := env.send_batch metrics
  (metrics,
    if 200 ≤ status ∧ status ≤ 299 then Except.ok ()
    else Except.error (Err.httpError status))

/-- The decorated `send_metrics_to_newrelic`: each attempt submits the batch
again, so the emission log holds one copy of the batch per attempt made by
the retry wrapper. -/
def send_metrics_to_newrelic (env : Env) (tags : Tags) (info : NodePoolInfo) :
    List (List GaugeMetric) × Except Err Unit :=
  let once := send_metrics_to_newrelic_body env tags info
  let r := tenacity_retry RETRY_ATTEMPTS RETRY_WAIT (fun _ => once.2)
  (List.replicate r.2.1 once.1, r.1)

/-- Source lines 139-146, one node pool: resolve its info, then send the
metrics.  Returns the batches submitted and the outcome. -/
def run_pool (env : Env) (project_id region cluster_name node_pool_name : String) :
    List (List GaugeMetric) × Except Err Unit :=
  match get_node_pool_info env project_id region cluster_name node_pool_name with
  | Except.error e => ([], Except.error e)
  | Except.ok info =>
      send_metrics_to_newrelic env
        { project_id := project_id, region := region,
          cluster_name := cluster_name, node_pool_name := node_pool_name } info

/-- Source line 138: the loop over one cluster's node pools.  An exception
propagates immediately: emissions made before it are kept, nothing after it
runs. -/
def run_pools (env : Env) (project_id region cluster_name : String) :
    List String → List (List GaugeMetric) × Except Err Unit
  | [] => ([], Except.ok ())
  | node_pool_name :: rest =>
      let p := run_pool env project_id region cluster_name node_pool_name
      match p.2 with
      | Except.error e => (p.1, Except.error e)
      | Except.ok _ =>
          let q := run_pools env project_id region cluster_name rest
          (p.1 ++ q.1, q.2)

/-- Source line 136: the loop over the `(cluster, node pools)` items of the
discovered mapping, in insertion order. -/
def run_clusters (env : Env) (project_id region : String) :
    List (String × List String) → List (List GaugeMetric) × Except Err Unit
  | [] => ([], Except.ok ())
  | entry :: rest =>
      let p := run_pools env project_id region entry.1 entry.2
      match p.2 with
      | Except.error e => (p.1, Except.error e)
      | Except.ok _ =>
          let q := run_clusters env project_id region rest
          (p.1 ++ q.1, q.2)

/-- Source lines 132-146: the loop over the configured project ids — the
body of `list_clusters_and_node_pools_info_and_send_metrics`, i.e. one
attempt of the decorated orchestrator. -/
def run_projects (env : Env) (region : String) :
    List String → List (List GaugeMetric) × Except Err Unit
  | [] => ([], Except.ok ())
  | project_id :: rest =>
      match get_all_clusters_and_node_pools env project_id region with
      | Except.error e => ([], Except.error e)
      | Except.ok cluster_map =>
          let p := run_clusters env project_id region cluster_map
          match p.2 with
          | Except.error e => (p.1, Except.error e)
          | Except.ok _ =>
              let q := run_projects env region rest
              (p.1 ++ q.1, q.2)

/-- The decorated orchestrator (source lines 116-146): the whole traversal
body is itself wrapped in the same retry decorator, so a failing attempt is
re-executed — emissions included — once per attempt made by the wrapper. -/
def list_clusters_and_node_pools_info_and_send_metrics (env : Env)
    (project_ids : List String) (region : String) :
    List (List GaugeMetric) × Except Err Unit :=
  let body := run_projects env region project_ids
  let r := tenacity_retry RETRY_ATTEMPTS RETRY_WAIT (fun _ => body.2)
  ((List.replicate r.2.1 body.1).flatten, r.1)

/-- Observable outcome of the `__main__` block. -/
structure MainOutcome where
  printed_config_message : Bool
  emissions : List (List GaugeMetric)
  result : Except Err Unit

/-- Source lines 149-158: read `GCP_PROJECT_IDS` and `GCP_REGION`, split the
former on commas (an empty string yields the empty list), and either print
the configuration message and stop, or run the orchestrator. -/
def main_block (env : Env) (gcp_project_ids gcp_region : Option String) : MainOutcome :=
  let project_ids_str := gcp_project_ids.getD ""
  let region := gcp_region.getD "us-central1"
  let project_ids := if project_ids_str = "" then [] else py_split project_ids_str ','
  if project_ids = [] then
    { printed_config_message := true, emissions := [], result := Except.ok () }
  else
    let r := list_clusters_and_node_pools_info_and_send_metrics env project_ids region
    { printed_config_message := false, emissions := r.1, result := r.2 }

/-- A well-formed instance-group URL naming project `p1`, zone `z1`, group
`g1`: splitting on `/` yields 11 segments with the payload at slots 6, 8
and 10. -/
def ok_url_1 : String :=
  "https://www.googleapis.com/compute/v1/projects/p1/zones/z1/instanceGroups/g1"

/-- A second well-formed instance-group URL, naming group `g2`. -/
def ok_url_2 : String :=
  "https://www.googleapis.com/compute/v1/projects/p1/zones/z1/instanceGroups/g2"

/-- An instance-group URL with a trailing extra segment: splitting on `/`
yields 12 segments, not the expected 11, yet slots 6, 8 and 10 all exist. -/
def extra_url : String :=
  "https://www.googleapis.com/compute/v1/projects/p1/zones/z1/instanceGroups/g1/extra"

/-- Happy-path environment for the end-to-end scenario of the spec: one
cluster `c1` with one node pool `np1` backed by two instance groups
reporting 3 and 4 live instances, `max_node_count = 10`, and an ingestion
endpoint answering 202. -/
def envScenario : Env where
  list_clusters := fun _ _ => Except.ok ["c1"]
  list_node_pools := fun _ _ _ => Except.ok ["np1"]
  get_node_pool := fun _ _ _ _ =>
    Except.ok { instance_group_urls := [ok_url_1, ok_url_2], max_node_count := 10 }
  list_instances := fun _ _ g =>
    Except.ok (some (if g = "g1" then ["i1", "i2", "i3"] else ["i1", "i2", "i3", "i4"]))
  send_batch := fun _ => 202

/-- Environment in which node pool `a` resolves and emits successfully while
node pool `b` always fails to resolve: the minimal scenario exhibiting an
emission followed by an unrecovered failure. -/
def envFail : Env where
  list_clusters := fun _ _ => Except.ok ["c"]
  list_node_pools := fun _ _ _ => Except.ok ["a", "b"]
  get_node_pool := fun _ _ _ np =>
    if np = "a" then Except.ok { instance_group_urls := [], max_node_count := 1 }
    else Except.error (Err.remote "down")
  list_instances := fun _ _ _ => Except.ok (some [])
  send_batch := fun _ => 202

/-- Environment whose cluster listing returns the same cluster name twice,
and whose instance listing carries no `items` field. -/
def envDup : Env where
  list_clusters := fun _ _ => Except.ok ["c", "c"]
  list_node_pools := fun _ _ _ => Except.ok ["np"]
  get_node_pool := fun _ _ _ _ =>
    Except.ok { instance_group_urls := [], max_node_count := 0 }
  list_instances := fun _ _ _ => Except.ok none
  send_batch := fun _ => 202

/-- Environment whose ingestion endpoint always answers HTTP 500. -/
def envBad : Env where
  list_clusters := fun _ _ => Except.ok []
  list_node_pools := fun _ _ _ => Except.ok []
  get_node_pool := fun _ _ _ _ =>
    Except.ok { instance_group_urls := [], max_node_count := 0 }
  list_instances := fun _ _ _ => Except.ok none
  send_batch := fun _ => 500

/-- Operation failing on attempts 0 and 1 and succeeding on attempt 2, used
to exercise the retry combinator. -/
def opW : Nat → Except Err Nat :=
  fun i => if i < 2 then Except.error (Err.remote "boom") else Except.ok 7

/-! Helper lemmas about the retry combinator. -/

/-- With no further attempts allowed, the current attempt is final: its
outcome is returned as is. -/
theorem retry_go_zero {α : Type} (op : Nat → Except Err α) (w idx tw : Nat) :
    retry_go op w 0 idx tw = (op idx, idx + 1, tw) := rfl

/-- An attempt that succeeds ends the loop with the success value. -/
theorem retry_go_succ_ok {α : Type} {op : Nat → Except Err α} {idx : Nat} {v : α}
    (w fuel tw : Nat) (h : op idx = Except.ok v) :
    retry_go op w (fuel + 1) idx tw = (Except.ok v, idx + 1, tw) := by
  unfold retry_go
  rw [h]

/-- An attempt that fails while further attempts remain waits `w` and moves
on to the next attempt. -/
theorem retry_go_succ_err {α : Type} {op : Nat → Except Err α} {idx : Nat} {e : Err}
    (w fuel tw : Nat) (h : op idx = Except.error e) :
    retry_go op w (fuel + 1) idx tw = retry_go op w fuel (idx + 1) (tw + w) := by
  conv_lhs => rw [retry_go]
  rw [h]

/-- A block of `k` consecutive failing attempts advances the loop by `k`
attempts, accumulating `w * k` waiting time. -/
theorem retry_go_fail_prefix {α : Type} (op : Nat → Except Err α) (w : Nat) :
    ∀ (k fuel idx tw : Nat), k ≤ fuel →
      (∀ i, i < k → ∃ e, op (idx + i) = Except.error e) →
      retry_go op w fuel idx tw = retry_go op w (fuel - k) (idx + k) (tw + w * k) := by
  intro k
  induction k with
  | zero => intro fuel idx tw _ _; simp
  | succ k ih =>
      intro fuel idx tw hk hf
      obtain ⟨e, he⟩ := hf 0 (Nat.succ_pos k)
      cases fuel with
      | zero => omega
      | succ fuel =>
          rw [retry_go_succ_err w fuel tw (by simpa using he)]
          rw [ih fuel (idx + 1) (tw + w) (by omega)
            (fun i hi => by
              obtain ⟨e2, he2⟩ := hf (i + 1) (by omega)
              exact ⟨e2, by rw [show idx + 1 + i = idx + (i + 1) by omega]; exact he2⟩)]
          have h1 : idx + 1 + k = idx + (k + 1) := by omega
          have h2 : tw + w + w * k = tw + w * (k + 1) := by ring
          have h3 : fuel + 1 - (k + 1) = fuel - k := by omega
          rw [h1, h2, h3]

/-- Retrying a deterministic operation returns the operation's own
outcome. -/
theorem retryE_eq {α : Type} (x : Except Err α) : retryE x = x := by
  cases x <;> rfl

/-- Retrying a deterministic successful operation performs a single
invocation and never waits. -/
theorem tenacity_const_ok {α : Type} (v : α) :
    tenacity_retry RETRY_ATTEMPTS RETRY_WAIT (fun _ => (Except.ok v : Except Err α)) =
      (Except.ok v, 1, 0) := rfl

/-- Retrying a deterministic failing operation performs all five
invocations, waits four times, and propagates the failure. -/
theorem tenacity_const_err {α : Type} (e : Err) :
    tenacity_retry RETRY_ATTEMPTS RETRY_WAIT (fun _ => (Except.error e : Except Err α)) =
      (Except.error e, 5, 8) := rfl

/-- C1: a wrapped operation that fails `k < 5` times and then succeeds
returns the success value after exactly `k + 1` invocations, having waited
the fixed 2-unit delay between consecutive attempts (`2 * k` in total); an
operation that fails on every attempt is invoked exactly 5 times, with the
fixed delay between attempts (`2 * 4` in total), and the final failure is
propagated unchanged. -/
theorem retry_policy_contract :
    (∀ (op : Nat → Except Err Nat) (k : Nat) (v : Nat),
        k < RETRY_ATTEMPTS →
        (∀ i, i < k → ∃ e, op i = Except.error e) →
        op k = Except.ok v →
        tenacity_retry RETRY_ATTEMPTS RETRY_WAIT op = (Except.ok v, k + 1, RETRY_WAIT * k))
    ∧ (∀ (op : Nat → Except Err Nat),
        (∀ i, ∃ e, op i = Except.error e) →
        ∃ e, op (RETRY_ATTEMPTS - 1) = Except.error e ∧
          tenacity_retry RETRY_ATTEMPTS RETRY_WAIT op =
            (Except.error e, RETRY_ATTEMPTS, RETRY_WAIT * (RETRY_ATTEMPTS - 1))) := by
  constructor
  · intro op k v hk hfail hok
    have hpre := retry_go_fail_prefix op 2 k 4 0 0 (by
        simpa [RETRY_ATTEMPTS] using Nat.lt_succ_iff.mp hk)
      (fun i hi => by simpa using hfail i hi)
    show retry_go op 2 4 0 0 = (Except.ok v, k + 1, 2 * k)
    rw [hpre]
    rcases Nat.lt_or_ge k 4 with h4 | h4
    · obtain ⟨d, hd⟩ : ∃ d, 4 - k = d + 1 := ⟨3 - k, by omega⟩
      rw [hd, retry_go_succ_ok 2 d (0 + 2 * k) (by simpa using hok)]
      simp [Nat.add_comm]
    · have hk4 : k = 4 := by
        have : k < 5 := by simpa [RETRY_ATTEMPTS] using hk
        omega
      subst hk4
      rw [show 4 - 4 = 0 from rfl, retry_go_zero]
      rw [show (0:Nat) + 4 = 4 from rfl, hok]
  · intro op hfail
    obtain ⟨e4, h4⟩ := hfail 4
    refine ⟨e4, by simpa [RETRY_ATTEMPTS] using h4, ?_⟩
    have hpre := retry_go_fail_prefix op 2 4 4 0 0 (le_refl 4)
      (fun i hi => by simpa using hfail i)
    show retry_go op 2 4 0 0 = (Except.error e4, 5, 2 * 4)
    rw [hpre, show 4 - 4 = 0 from rfl, retry_go_zero]
    rw [show (0:Nat) + 4 = 4 from rfl, h4]

/-- Witness for C1: the operation `opW` fails on attempts 0 and 1 and
succeeds on attempt 2; the wrapped call returns 7 after 3 invocations and
4 units of waiting. -/
theorem retry_policy_contract_witness :
    tenacity_retry RETRY_ATTEMPTS RETRY_WAIT opW = (Except.ok 7, 2 + 1, RETRY_WAIT * 2) :=
  retry_policy_contract.1 opW 2 7 (by decide)
    (fun i hi => ⟨Err.remote "boom", by simp [opW, hi]⟩)
    rfl

/-- C3: the utilization computation returns
`currentNodeCount / maxNodeCount * 100` when `maxNodeCount > 0` and `0` when
`maxNodeCount = 0`; the function is total, so the zero case raises no
divide-by-zero fault. -/
theorem usage_percent_spec :
    ∀ current maxc : Nat,
      (0 < maxc → node_usage_percent current maxc = ((current : ℚ) / (maxc : ℚ)) * 100)
      ∧ (maxc = 0 → node_usage_percent current maxc = 0) := by
  intro current maxc
  constructor
  · intro hm
    simp [node_usage_percent, Nat.pos_iff_ne_zero.mp hm]
  · intro hm
    simp [node_usage_percent, hm]

/-- Witness for C3: both branches evaluated at concrete inputs. -/
theorem usage_percent_spec_witness :
    node_usage_percent 7 10 = (((7 : Nat) : ℚ) / ((10 : Nat) : ℚ)) * 100
    ∧ node_usage_percent 3 0 = 0 :=
  ⟨(usage_percent_spec 7 10).1 (by norm_num), (usage_percent_spec 3 0).2 rfl⟩

/-- C5 counterexample: `extra_url` splits into 12 slash-delimited segments —
not the expected fixed depth of 11 — yet the parse does not fail: it
extracts slots 6, 8 and 10, and the remote listing call is then made (here
it answers 3 instances).  The code only fails fast on locators with too few
segments, never on locators with too many. -/
theorem locator_depth_counterexample :
    (py_split extra_url '/').length = 12
    ∧ decide ((py_split extra_url '/').length = 11) = false
    ∧ parse_instance_group_url extra_url = some ("p1", "z1", "g1")
    ∧ get_instance_group_node_count_body envScenario extra_url = Except.ok 3 :=
  ⟨rfl, rfl, rfl, rfl⟩

/-- C5 (amended): for every locator with at most 10 slash-delimited
segments, the parse raises an index error before any remote call is made
(the result does not depend on the remote environment); for every locator
with at least 11 segments — including those with more than the expected 11 —
the parse succeeds and extracts `{project, zone, groupName}` from the fixed
positional slots 6, 8 and 10. -/
theorem locator_parse_amended :
    ∀ (instance_group_url : String) (env env2 : Env),
      ((py_split instance_group_url '/').length ≤ 10 →
        parse_instance_group_url instance_group_url = none
        ∧ get_instance_group_node_count_body env instance_group_url =
            Except.error Err.indexError
        ∧ get_instance_group_node_count env instance_group_url =
            get_instance_group_node_count env2 instance_group_url)
      ∧ (10 < (py_split instance_group_url '/').length →
        parse_instance_group_url instance_group_url =
          some ((py_split instance_group_url '/').getD 6 "",
            (py_split instance_group_url '/').getD 8 "",
            (py_split instance_group_url '/').getD 10 "")) := by
  intro url env env2
  constructor
  · intro h
    have h10 : (py_split url '/')[10]? = none := List.getElem?_eq_none (by omega)
    have hp : parse_instance_group_url url = none := by
      unfold parse_instance_group_url
      cases h6 : (py_split url '/')[6]? <;> cases h8 : (py_split url '/')[8]? <;>
        simp [h6, h8, h10]
    refine ⟨hp, ?_, ?_⟩
    · simp [get_instance_group_node_count_body, hp]
    · simp [get_instance_group_node_count, retryE_eq, get_instance_group_node_count_body, hp]
  · intro h
    have h6 := List.getElem?_eq_getElem (l := py_split url '/') (n := 6) (by omega)
    have h8 := List.getElem?_eq_getElem (l := py_split url '/') (n := 8) (by omega)
    have h10 := List.getElem?_eq_getElem (l := py_split url '/') (n := 10) (by omega)
    unfold parse_instance_group_url
    simp only [h6, h8, h10]
    rw [List.getD_eq_getElem?_getD, List.getD_eq_getElem?_getD, List.getD_eq_getElem?_getD,
      h6, h8, h10]
    rfl

/-- Witness for C5 (amended): a 1-segment locator fails with the index
error independently of the environment; the 12-segment locator parses to
its fixed slots. -/
theorem locator_parse_amended_witness :
    parse_instance_group_url "abc" = none
    ∧ get_instance_group_node_count envDup "abc" = get_instance_group_node_count envScenario "abc"
    ∧ parse_instance_group_url extra_url =
        some ((py_split extra_url '/').getD 6 "", (py_split extra_url '/').getD 8 "",
          (py_split extra_url '/').getD 10 "") :=
  ⟨((locator_parse_amended "abc" envDup envScenario).1 (by decide)).1,
   ((locator_parse_amended "abc" envDup envScenario).1 (by decide)).2.2,
   (locator_parse_amended extra_url envDup envScenario).2 (by decide)⟩

/-- C6: when the remote listing answers with no `items` field or with an
empty list, `get_instance_group_node_count` returns the integer `0`; when
it answers with a list of instances, the count of those instances is
returned. -/
theorem count_instances_spec :
    ∀ (env : Env) (url project zone instance_group : String),
      parse_instance_group_url url = some (project, zone, instance_group) →
      ((env.list_instances project zone instance_group = Except.ok none →
          get_instance_group_node_count env url = Except.ok 0)
      ∧ (env.list_instances project zone instance_group = Except.ok (some []) →
          get_instance_group_node_count env url = Except.ok 0)
      ∧ (∀ items : List String,
          env.list_instances project zone instance_group = Except.ok (some items) →
          get_instance_group_node_count env url = Except.ok items.length)) := by
  intro env url project zone instance_group hp
  refine ⟨?_, ?_, ?_⟩
  · intro h
    simp [get_instance_group_node_count, retryE_eq, get_instance_group_node_count_body,
      hp, h, count_of_items]
  · intro h
    simp [get_instance_group_node_count, retryE_eq, get_instance_group_node_count_body,
      hp, h, count_of_items]
  · intro items h
    cases items <;>
      simp [get_instance_group_node_count, retryE_eq, get_instance_group_node_count_body,
        hp, h, count_of_items]

/-- Witness for C6: a group with three live instances counts 3; a response
with no `items` field counts 0. -/
theorem count_instances_spec_witness :
    get_instance_group_node_count envScenario ok_url_1 =
      Except.ok (["i1", "i2", "i3"] : List String).length
    ∧ get_instance_group_node_count envDup ok_url_1 = Except.ok 0 :=
  ⟨(count_instances_spec envScenario ok_url_1 "p1" "z1" "g1" rfl).2.2 ["i1", "i2", "i3"] rfl,
   (count_instances_spec envDup ok_url_1 "p1" "z1" "g1" rfl).1 rfl⟩

/-- When every per-group count succeeds, the left-to-right sum over the
instance-group URLs succeeds and equals the sum of the individual counts. -/
theorem sum_instance_group_counts_spec (env : Env) (f : String → Nat) :
    ∀ urls : List String,
      (∀ url ∈ urls, get_instance_group_node_count env url = Except.ok (f url)) →
      sum_instance_group_counts env urls = Except.ok ((urls.map f).sum) := by
  intro urls
  induction urls with
  | nil => intro _; rfl
  | cons u us ih =>
      intro h
      have h1 : get_instance_group_node_count env u = Except.ok (f u) := h u (by simp)
      have h2 := ih (fun url hu => h url (by simp [hu]))
      simp [sum_instance_group_counts, h1, h2]

/-- C4: `get_node_pool_info` returns a `currentNodeCount` equal to the sum
of the per-instance-group counts over all attached instance-group
references; a node pool with zero instance groups yields
`currentNodeCount = 0` without error, with `usagePercent = 0` whatever the
ceiling (in particular when `maxNodeCount > 0`); and the end-to-end
scenario — two groups reporting 3 and 4 instances with
`maxNodeCount = 10` — yields the record `{7, 10, 70}`. -/
theorem node_pool_info_sum_spec :
    (∀ (env : Env) (pid region cname pname : String) (np : NodePool) (f : String → Nat),
        env.get_node_pool pid region cname pname = Except.ok np →
        (∀ url ∈ np.instance_group_urls,
          get_instance_group_node_count env url = Except.ok (f url)) →
        get_node_pool_info env pid region cname pname =
          Except.ok
            { current_node_count := (np.instance_group_urls.map f).sum,
              max_node_count := np.max_node_count,
              node_usage_percent :=
                node_usage_percent ((np.instance_group_urls.map f).sum) np.max_node_count })
    ∧ (∀ (env : Env) (pid region cname pname : String) (np : NodePool),
        env.get_node_pool pid region cname pname = Except.ok np →
        np.instance_group_urls = [] →
        get_node_pool_info env pid region cname pname =
          Except.ok
            { current_node_count := 0, max_node_count := np.max_node_count,
              node_usage_percent := 0 })
    ∧ (∀ maxc : Nat, node_usage_percent 0 maxc = 0)
    ∧ (get_node_pool_info envScenario "p1" "us-central1" "c1" "np1" =
        Except.ok { current_node_count := 7, max_node_count := 10, node_usage_percent := 70 }) := by
  have hzero : ∀ maxc : Nat, node_usage_percent 0 maxc = 0 := by
    intro maxc
    by_cases hm : maxc = 0 <;> simp [node_usage_percent, hm]
  have hmain : ∀ (env : Env) (pid region cname pname : String) (np : NodePool)
      (f : String → Nat),
      env.get_node_pool pid region cname pname = Except.ok np →
      (∀ url ∈ np.instance_group_urls,
        get_instance_group_node_count env url = Except.ok (f url)) →
      get_node_pool_info env pid region cname pname =
        Except.ok
          { current_node_count := (np.instance_group_urls.map f).sum,
            max_node_count := np.max_node_count,
            node_usage_percent :=
              node_usage_percent ((np.instance_group_urls.map f).sum) np.max_node_count } := by
    intro env pid region cname pname np f hnp hcounts
    have hsum := sum_instance_group_counts_spec env f np.instance_group_urls hcounts
    simp [get_node_pool_info, retryE_eq, get_node_pool_info_body, hnp, hsum]
  refine ⟨hmain, ?_, hzero, ?_⟩
  · intro env pid region cname pname np hnp hurls
    have := hmain env pid region cname pname np (fun _ => 0) hnp
      (by rw [hurls]; intro url hu; simp at hu)
    rw [hurls] at this
    simpa [hzero] using this
  · have := hmain envScenario "p1" "us-central1" "c1" "np1"
      { instance_group_urls := [ok_url_1, ok_url_2], max_node_count := 10 }
      (fun url => if url = ok_url_1 then 3 else 4) rfl
      (by
        intro url hu
        rcases List.mem_cons.mp hu with rfl | hu
        · rfl
        · rcases List.mem_singleton.mp hu with rfl
          rfl)
    rw [this]
    have hne : ok_url_2 ≠ ok_url_1 := by decide
    rw [show ((([ok_url_1, ok_url_2] : List String).map
        (fun url => if url = ok_url_1 then 3 else 4)).sum : Nat) = 7 by
      simp [if_pos rfl, if_neg hne]]
    norm_num [node_usage_percent]

/-- Witness for C4: the general sum statement applied at the scenario
environment with the per-group counts 3 and 4. -/
theorem node_pool_info_sum_spec_witness :
    get_node_pool_info envScenario "p1" "us-central1" "c1" "np1" =
      Except.ok
        { current_node_count := (([ok_url_1, ok_url_2] : List String).map
            (fun url => if url = ok_url_1 then 3 else 4)).sum,
          max_node_count := 10,
          node_usage_percent :=
            node_usage_percent ((([ok_url_1, ok_url_2] : List String).map
              (fun url => if url = ok_url_1 then 3 else 4)).sum) 10 } :=
  node_pool_info_sum_spec.1 envScenario "p1" "us-central1" "c1" "np1"
    { instance_group_urls := [ok_url_1, ok_url_2], max_node_count := 10 }
    (fun url => if url = ok_url_1 then 3 else 4) rfl
    (fun url hu => by
      rcases List.mem_cons.mp hu with rfl | hu
      · rfl
      · rcases List.mem_singleton.mp hu with rfl
        rfl)

/-- C7: the emitter builds exactly three gauge metrics — current node
count, max node count, usage percent — all carrying the identical tag set;
it submits them as one single batch; a 2xx response status is a success and
any other status is a failure. -/
theorem send_metrics_spec :
    ∀ (env : Env) (tags : Tags) (info : NodePoolInfo),
      build_metrics tags info =
        [ { name := "gke.node_pool.current_node_count",
            value := (info.current_node_count : ℚ), tags := tags },
          { name := "gke.node_pool.max_node_count",
            value := (info.max_node_count : ℚ), tags := tags },
          { name := "gke.node_pool.node_usage_percent",
            value := info.node_usage_percent, tags := tags } ]
      ∧ (build_metrics tags info).length = 3
      ∧ (∀ m ∈ build_metrics tags info, m.tags = tags)
      ∧ (send_metrics_to_newrelic_body env tags info).1 = build_metrics tags info
      ∧ ((200 ≤ env.send_batch (build_metrics tags info)
            ∧ env.send_batch (build_metrics tags info) ≤ 299) →
          (send_metrics_to_newrelic_body env tags info).2 = Except.ok ())
      ∧ (¬(200 ≤ env.send_batch (build_metrics tags info)
            ∧ env.send_batch (build_metrics tags info) ≤ 299) →
          (send_metrics_to_newrelic_body env tags info).2 =
            Except.error (Err.httpError (env.send_batch (build_metrics tags info)))) := by
  intro env tags info
  refine ⟨rfl, rfl, ?_, rfl, ?_, ?_⟩
  · intro m hm
    rcases List.mem_cons.mp hm with rfl | hm
    · rfl
    · rcases List.mem_cons.mp hm with rfl | hm
      · rfl
      · rcases List.mem_singleton.mp hm with rfl
        rfl
  · intro h
    simp [send_metrics_to_newrelic_body, h]
  · intro h
    simp [send_metrics_to_newrelic_body, h]

/-- Witness for C7: against the endpoint that always answers 500, the
emitter fails with the HTTP error; against the endpoint answering 202 it
succeeds. -/
theorem send_metrics_spec_witness :
    (send_metrics_to_newrelic_body envBad
        { project_id := "p1", region := "r", cluster_name := "c1", node_pool_name := "np1" }
        { current_node_count := 0, max_node_count := 0, node_usage_percent := 0 }).2 =
      Except.error (Err.httpError (envBad.send_batch (build_metrics
        { project_id := "p1", region := "r", cluster_name := "c1", node_pool_name := "np1" }
        { current_node_count := 0, max_node_count := 0, node_usage_percent := 0 })))
    ∧ (send_metrics_to_newrelic_body envScenario
        { project_id := "p1", region := "r", cluster_name := "c1", node_pool_name := "np1" }
        { current_node_count := 0, max_node_count := 0, node_usage_percent := 0 }).2 =
      Except.ok () :=
  ⟨(send_metrics_spec envBad
      { project_id := "p1", region := "r", cluster_name := "c1", node_pool_name := "np1" }
      { current_node_count := 0, max_node_count := 0, node_usage_percent := 0 }).2.2.2.2.2
      (by decide),
   (send_metrics_spec envScenario
      { project_id := "p1", region := "r", cluster_name := "c1", node_pool_name := "np1" }
      { current_node_count := 0, max_node_count := 0, node_usage_percent := 0 }).2.2.2.2.1
      (by decide)⟩

/-- C10: the usage percentage is not clamped to 100 — whenever
`currentNodeCount > maxNodeCount > 0` the computed percentage exceeds 100;
the record stores exactly the computed percentage, and the third gauge
metric carries the stored percentage unchanged. -/
theorem usage_percent_not_clamped :
    (∀ current maxc : Nat, 0 < maxc → maxc < current →
        100 < node_usage_percent current maxc)
    ∧ (∀ (env : Env) (pid region cname pname : String) (info : NodePoolInfo),
        get_node_pool_info env pid region cname pname = Except.ok info →
        info.node_usage_percent =
          node_usage_percent info.current_node_count info.max_node_count)
    ∧ (∀ (tags : Tags) (info : NodePoolInfo),
        (build_metrics tags info)[2]? =
          some { name := "gke.node_pool.node_usage_percent",
                 value := info.node_usage_percent, tags := tags }) := by
  refine ⟨?_, ?_, fun _ _ => rfl⟩
  · intro current maxc hm hcm
    have hm2 : (0 : ℚ) < (maxc : ℚ) := by exact_mod_cast hm
    have h1 : (1 : ℚ) < (current : ℚ) / (maxc : ℚ) :=
      (one_lt_div hm2).mpr (by exact_mod_cast hcm)
    have h2 := mul_lt_mul_of_pos_right h1 (by norm_num : (0 : ℚ) < 100)
    rw [one_mul] at h2
    rw [node_usage_percent, if_pos (Nat.pos_iff_ne_zero.mp hm)]
    exact h2
  · intro env pid region cname pname info h
    rw [get_node_pool_info, retryE_eq, get_node_pool_info_body] at h
    cases hg : env.get_node_pool pid region cname pname with
    | error e =>
        simp only [hg] at h
        exact Except.noConfusion h
    | ok np =>
        simp only [hg] at h
        cases hs : sum_instance_group_counts env np.instance_group_urls with
        | error e =>
            simp only [hs] at h
            exact Except.noConfusion h
        | ok current =>
            simp only [hs] at h
            injection h with h
            rw [← h]

/-- Witness for C10: with 3 current nodes over a ceiling of 2, the
percentage exceeds 100. -/
theorem usage_percent_not_clamped_witness :
    100 < node_usage_percent 3 2 :=
  usage_percent_not_clamped.1 3 2 (by norm_num) (by norm_num)

/-- A failing node-pool loop absorbs any continuation: the pools after the
failure point are never processed and contribute no emissions. -/
theorem run_pools_append (env : Env) (pid region cname : String)
    (qs : List String) (e : Err) :
    ∀ ps : List String, (run_pools env pid region cname ps).2 = Except.error e →
      run_pools env pid region cname (ps ++ qs) = run_pools env pid region cname ps := by
  intro ps
  induction ps with
  | nil => intro h; simp [run_pools] at h
  | cons p ps ih =>
      intro h
      simp only [List.cons_append, run_pools] at h ⊢
      cases hp : (run_pool env pid region cname p).2 with
      | error e2 => simp only [hp]
      | ok u =>
          simp only [hp, List.append_eq] at h ⊢
          rw [ih h]

/-- A failing cluster loop absorbs any continuation. -/
theorem run_clusters_append (env : Env) (pid region : String)
    (qs : List (String × List String)) (e : Err) :
    ∀ cs : List (String × List String),
      (run_clusters env pid region cs).2 = Except.error e →
      run_clusters env pid region (cs ++ qs) = run_clusters env pid region cs := by
  intro cs
  induction cs with
  | nil => intro h; simp [run_clusters] at h
  | cons entry cs ih =>
      intro h
      simp only [List.cons_append, run_clusters] at h ⊢
      cases hp : (run_pools env pid region entry.1 entry.2).2 with
      | error e2 => simp only [hp]
      | ok u =>
          simp only [hp, List.append_eq] at h ⊢
          rw [ih h]

/-- A failing project loop absorbs any continuation. -/
theorem run_projects_append (env : Env) (region : String)
    (qs : List String) (e : Err) :
    ∀ ps : List String, (run_projects env region ps).2 = Except.error e →
      run_projects env region (ps ++ qs) = run_projects env region ps := by
  intro ps
  induction ps with
  | nil => intro h; simp [run_projects] at h
  | cons pid ps ih =>
      intro h
      simp only [List.cons_append, run_projects] at h ⊢
      cases hm : get_all_clusters_and_node_pools env pid region with
      | error e2 => simp only [hm]
      | ok m =>
          simp only [hm] at h ⊢
          cases hp : (run_clusters env pid region m).2 with
          | error e2 => simp only [hp]
          | ok u =>
              simp only [hp, List.append_eq] at h ⊢
              rw [ih h]

/-- C2 counterexample: in `envFail`, one attempt of the orchestrator body
emits one batch (for node pool `a`) and then hits the unrecovered failure
of node pool `b` — yet the full decorated orchestrator emits 5 batches,
because the orchestrator function is itself wrapped in the retry decorator
and re-executes the whole traversal, emissions included, on every attempt.
Emissions therefore do occur after the first unrecovered leaf failure,
contradicting the claim. -/
theorem orchestrator_rerun_counterexample :
    (run_projects envFail "r" ["p"]).2 = Except.error (Err.remote "down")
    ∧ (run_projects envFail "r" ["p"]).1.length = 1
    ∧ (list_clusters_and_node_pools_info_and_send_metrics envFail ["p"] "r").1.length = 5
    ∧ (list_clusters_and_node_pools_info_and_send_metrics envFail ["p"] "r").2 =
        Except.error (Err.remote "down")
    ∧ decide ((5 : Nat) = 1) = false :=
  ⟨rfl, rfl, rfl, rfl, rfl⟩

/-- C2 (amended): within a single attempt of the orchestrator body, once
any leaf call fails after exhausting its own retries, the attempt aborts at
every nesting level — node pools, clusters and projects after the failure
point are never processed and no further emission is performed within that
attempt, with no per-item catch-and-continue; the orchestrator function is
however itself retry-wrapped, so the failing traversal as a whole is
re-executed up to 4 more times (emissions included) before the failure
propagates. -/
theorem orchestrator_abort_amended :
    (∀ (env : Env) (pid region cname : String) (ps qs : List String) (e : Err),
        (run_pools env pid region cname ps).2 = Except.error e →
        run_pools env pid region cname (ps ++ qs) = run_pools env pid region cname ps)
    ∧ (∀ (env : Env) (pid region : String) (cs qs : List (String × List String)) (e : Err),
        (run_clusters env pid region cs).2 = Except.error e →
        run_clusters env pid region (cs ++ qs) = run_clusters env pid region cs)
    ∧ (∀ (env : Env) (region : String) (ps qs : List String) (e : Err),
        (run_projects env region ps).2 = Except.error e →
        run_projects env region (ps ++ qs) = run_projects env region ps) :=
  ⟨fun env pid region cname ps qs e h => run_pools_append env pid region cname qs e ps h,
   fun env pid region cs qs e h => run_clusters_append env pid region qs e cs h,
   fun env region ps qs e h => run_projects_append env region qs e ps h⟩

/-- Witness for C2 (amended): in `envFail` the first project fails, so a
second project appended to the list changes nothing about the attempt. -/
theorem orchestrator_abort_amended_witness :
    (run_projects envFail "r" ["p"]).2 = Except.error (Err.remote "down")
    ∧ run_projects envFail "r" (["p"] ++ ["p2"]) = run_projects envFail "r" ["p"] :=
  ⟨rfl, orchestrator_abort_amended.2.2 envFail "r" ["p"] ["p2"] (Err.remote "down") rfl⟩

/-- Inserting a key absent from an association list appends it at the
end. -/
theorem dict_insert_new (m : List (String × List String)) (k : String) (v : List String)
    (h : ∀ p ∈ m, p.1 ≠ k) : dict_insert m k v = m ++ [(k, v)] := by
  have ha : m.any (fun p => p.1 == k) = false := by
    rw [List.any_eq_false]
    intro p hp
    simpa using h p hp
  simp [dict_insert, ha]

/-- The discovery loop over clusters with pairwise-distinct names builds
the association list of `(cluster, node pools)` pairs in traversal order,
appended after the accumulator. -/
theorem build_cluster_map_spec (env : Env) (pid region : String) (f : String → List String) :
    ∀ (cs : List String) (acc : List (String × List String)),
      cs.Nodup →
      (∀ c ∈ cs, env.list_node_pools pid region c = Except.ok (f c)) →
      (∀ p ∈ acc, p.1 ∉ cs) →
      build_cluster_map env pid region cs acc =
        Except.ok (acc ++ cs.map (fun c => (c, f c))) := by
  intro cs
  induction cs with
  | nil => intro acc _ _ _; simp [build_cluster_map]
  | cons c cs ih =>
      intro acc hnd hok hacc
      have hc := hok c (by simp)
      simp only [build_cluster_map, hc]
      rw [dict_insert_new acc c (f c) (fun p hp => by
        have h2 := hacc p hp
        simp only [List.mem_cons, not_or] at h2
        exact h2.1)]
      rw [ih (acc ++ [(c, f c)]) (List.nodup_cons.mp hnd).2
        (fun c2 hc2 => hok c2 (by simp [hc2]))
        (fun p hp => by
          rcases List.mem_append.mp hp with hp | hp
          · exact fun hmem => hacc p hp (by simp [hmem])
          · rcases List.mem_singleton.mp hp with rfl
            exact (List.nodup_cons.mp hnd).1)]
      simp

/-- C8 counterexample: when the API returns the same cluster name twice,
the dictionary keyed by cluster name collapses the two entries into one, so
the key list is `["c"]` and not the API-return sequence `["c", "c"]`. -/
theorem cluster_map_duplicate_counterexample :
    envDup.list_clusters "p" "r" = Except.ok ["c", "c"]
    ∧ get_all_clusters_and_node_pools envDup "p" "r" = Except.ok [("c", ["np"])]
    ∧ (([("c", ["np"])] : List (String × List String)).map Prod.fst).length = 1
    ∧ decide ((["c"] : List String) = ["c", "c"]) = false :=
  ⟨rfl, rfl, rfl, rfl⟩

/-- C8 (amended): for every API response whose cluster names are pairwise
distinct, the mapping lists one key per returned cluster, in API-return
order, and maps each cluster name to its node-pool names exactly as the API
returned them, without re-sorting; duplicate cluster names are instead
collapsed onto a single key. -/
theorem cluster_map_order_spec :
    ∀ (env : Env) (pid region : String) (clusters : List String) (f : String → List String),
      env.list_clusters pid region = Except.ok clusters →
      clusters.Nodup →
      (∀ c ∈ clusters, env.list_node_pools pid region c = Except.ok (f c)) →
      get_all_clusters_and_node_pools env pid region =
        Except.ok (clusters.map (fun c => (c, f c)))
      ∧ (clusters.map (fun c => (c, f c))).map Prod.fst = clusters := by
  intro env pid region clusters f hc hnd hok
  constructor
  · rw [get_all_clusters_and_node_pools, retryE_eq, get_all_clusters_and_node_pools_body]
    simp only [hc]
    simpa using build_cluster_map_spec env pid region f clusters [] hnd hok (by simp)
  · rw [List.map_map]
    exact List.map_id' clusters

/-- Witness for C8 (amended): the single cluster `c1` with node pool `np1`
is listed under its own name with its pools in order. -/
theorem cluster_map_order_spec_witness :
    get_all_clusters_and_node_pools envScenario "p1" "us-central1" =
      Except.ok ((["c1"] : List String).map (fun c => (c, ["np1"])))
    ∧ (((["c1"] : List String).map (fun c => (c, ["np1"]))).map Prod.fst = ["c1"]) :=
  cluster_map_order_spec envScenario "p1" "us-central1" ["c1"] (fun _ => ["np1"]) rfl
    (by simp) (fun _ _ => rfl)

/-- C9: with `GCP_PROJECT_IDS` unset or empty, the program consults no
remote capability at all (its outcome is the same for every remote
environment), emits no metrics, prints the configuration message, and ends
without error. -/
theorem empty_project_ids_spec :
    ∀ (env env2 : Env) (gcp_project_ids gcp_region : Option String),
      (gcp_project_ids = none ∨ gcp_project_ids = some "") →
      main_block env gcp_project_ids gcp_region = main_block env2 gcp_project_ids gcp_region
      ∧ (main_block env gcp_project_ids gcp_region).printed_config_message = true
      ∧ (main_block env gcp_project_ids gcp_region).emissions = []
      ∧ (main_block env gcp_project_ids gcp_region).result = Except.ok () := by
  intro env env2 ids reg h
  rcases h with rfl | rfl
  · exact ⟨rfl, rfl, rfl, rfl⟩
  · exact ⟨rfl, rfl, rfl, rfl⟩

/-- Witness for C9: the unset variable evaluated against two different
remote environments. -/
theorem empty_project_ids_spec_witness :
    main_block envDup none (some "r") = main_block envScenario none (some "r")
    ∧ (main_block envDup none (some "r")).printed_config_message = true
    ∧ (main_block envDup none (some "r")).emissions = []
    ∧ (main_block envDup none (some "r")).result = Except.ok () :=
  empty_project_ids_spec envDup envScenario none (some "r") (Or.inl rfl)

end GKE
